import Mathlib

/-!
Verification of the HeyGen MCP server (`src/heygen_mcp/server.py`).

The server module is embedded shallowly:

* Pydantic response models become Lean structures; each carries the fields the
  server reads or writes, plus the `error : Option String` field every tool
  result has.
* Python exceptions become `Except String`; an exception's message is the
  `String` in the `.error` constructor.
* The module-global `api_client` together with the process environment becomes
  an explicit `ServerState` threaded through `get_api_client`.
* Local-filesystem effects of the download tool become an explicit `FS` value
  (the set of directories and files that exist).  Effects persist across the
  `except` boundary, mirroring Python, so an error branch still returns the
  filesystem as mutated so far.
* The `heygen_mcp.api_client` module is not part of the sources; its methods
  are passed in as an `ExternalOps` record of `Except`-valued functions, so
  theorems quantify over every possible behaviour (success or raised
  exception) of the HTTP client.  Where a claim depends on the behaviour of a
  specific client method, that method is modelled from the spec (see
  `clientDownloadVideo` and `wait_for_video_completion`).
-/

set_option autoImplicit false

namespace HeyGenMCP

/-- The HTTP client object (`HeyGenApiClient(api_key)`): all the server module
stores in it is the API key it was constructed with. -/
structure HeyGenApiClient where
  api_key : String
deriving DecidableEq, Repr

/-- The server module's mutable global state: the module-global `api_client`
(initially `None`) and the `HEYGEN_API_KEY` process environment variable
(`None` models an unset variable). -/
structure ServerState where
  api_client : Option HeyGenApiClient
  heygen_api_key : Option String
deriving DecidableEq, Repr

/-- The error message raised by `get_api_client` when no API key is set. -/
def missing_key_message : String := "HEYGEN_API_KEY environment variable not set."

/-- `get_api_client` from `server.py`: return the cached client if present;
otherwise read `HEYGEN_API_KEY` from the environment, raise `ValueError` when
it is unset or empty (Python's `if not api_key`), and otherwise construct,
cache and return a new client. -/
def get_api_client (st : ServerState) : Except String (HeyGenApiClient × ServerState) :=
  match st.api_client with
  | some client => .ok (client, st)
  | none =>
    match st.heygen_api_key with
    | none => .error missing_key_message
    | some api_key =>
      if api_key = "" then .error missing_key_message
      else
        let client : HeyGenApiClient := ⟨api_key⟩
        .ok (client, { st with api_client := some client })

/-! ### Request models (`heygen_mcp.api_client` pydantic models used by the server) -/

/-- Character reference inside a video input segment. -/
structure Character where
  avatar_id : Option String
deriving DecidableEq, Repr

/-- Voice reference inside a video input segment. -/
structure Voice where
  input_text : String
  voice_id : Option String
deriving DecidableEq, Repr

/-- One video input segment: a character and a voice. -/
structure VideoInput where
  character : Character
  voice : Voice
deriving DecidableEq, Repr

/-- Output dimensions of the generated video. -/
structure Dimension where
  width : Nat
  height : Nat
deriving DecidableEq, Repr

/-- The video generation request the server builds in `create_video`. -/
structure VideoGenerateRequest where
  title : String
  video_inputs : List VideoInput
  dimension : Dimension
deriving DecidableEq, Repr

/-! ### Response models

Modelled from the spec: the response models live in `heygen_mcp.api_client`,
which is not under src/.  Spec §2/§3: "Domain response models: typed shapes for
each tool's result, each carrying either success fields or an error string."
Each structure below carries the fields the server reads or writes plus a
success payload field, all optional and defaulting to `none`/empty exactly so
that `Response(error=str(e))` translates to `{ error := some e }`. -/

/-- Result type of the `account_credits` tool. -/
structure MCPGetCreditsResponse where
  remaining_quota : Option Nat := none
  error : Option String := none
deriving DecidableEq, Repr

/-- Result type of the `list_available_voices` tool. -/
structure MCPVoicesResponse where
  voices : List String := []
  error : Option String := none
deriving DecidableEq, Repr

/-- Result type of the `list_avatar_groups` tool. -/
structure MCPAvatarGroupResponse where
  avatar_group_list : List String := []
  error : Option String := none
deriving DecidableEq, Repr

/-- Result type of the `list_avatars_in_group` tool. -/
structure MCPAvatarsInGroupResponse where
  avatar_list : List String := []
  error : Option String := none
deriving DecidableEq, Repr

/-- Result type of the `check_video_status` and `wait_for_video` tools:
the job status string and, once available, the remote video URL. -/
structure MCPVideoStatusResponse where
  status : Option String := none
  video_url : Option String := none
  error : Option String := none
deriving DecidableEq, Repr

/-- A local path is a list of path segments; the last segment is the file
name.  (`str(temp_dir / filename)` appends one segment.) -/
abbrev LocalPath := List String

/-- The MCP `Resource` object the server constructs from the downloaded file
path (`Resource(file_path)` in `download_video`). -/
structure Resource where
  file_path : LocalPath
deriving DecidableEq, Repr

/-- Result type of the `create_video` and `download_video` tools. -/
structure MCPVideoGenerateResponse where
  video_id : Option String := none
  status : Option String := none
  video_url : Option String := none
  download_path : Option LocalPath := none
  resource : Option Resource := none
  error : Option String := none
deriving DecidableEq, Repr

/-! ### Local filesystem -/

/-- The local filesystem as the download tool observes it: which directories
and which files exist. -/
structure FS where
  dirs : List LocalPath
  files : List LocalPath
deriving DecidableEq, Repr

/-- `Path.mkdir(exist_ok=True)`: ensure a directory exists. -/
def mkdirIfMissing (d : LocalPath) (fs : FS) : FS :=
  { fs with dirs := if d ∈ fs.dirs then fs.dirs else d :: fs.dirs }

theorem mem_dirs_mkdirIfMissing (d : LocalPath) (fs : FS) :
    d ∈ (mkdirIfMissing d fs).dirs := by
  unfold mkdirIfMissing
  by_cases h : d ∈ fs.dirs <;> simp [h]

/-! ### External operations

The methods of `HeyGenApiClient` (module `heygen_mcp.api_client`, not under
src/) and the `Resource` constructor (from the external `mcp` package).  Each
is an arbitrary function into `Except String _`: `.error e` models the call
raising an exception with message `e`.  `download_video` additionally takes
and returns the filesystem, and its effects persist even when it fails
(`FS × Except …` rather than `Except … (… × FS)`). -/

structure ExternalOps where
  get_remaining_credits : HeyGenApiClient → Except String MCPGetCreditsResponse
  get_voices : HeyGenApiClient → Except String MCPVoicesResponse
  list_avatar_groups : HeyGenApiClient → Bool → Except String MCPAvatarGroupResponse
  get_avatars_in_group : HeyGenApiClient → String → Except String MCPAvatarsInGroupResponse
  generate_avatar_video :
    HeyGenApiClient → VideoGenerateRequest → Except String MCPVideoGenerateResponse
  get_video_status : HeyGenApiClient → String → Except String MCPVideoStatusResponse
  wait_for_video_completion :
    HeyGenApiClient → String → Nat → Nat → Except String MCPVideoStatusResponse
  download_video :
    HeyGenApiClient → String → LocalPath → FS → FS × Except String LocalPath
  mkResource : LocalPath → Except String Resource

/-! ### Timestamps

`datetime.now().strftime("%Y%m%d_%H%M%S")`: zero-padded decimal fields.
`digitChar`, `twoDigits` and `fourDigits` spell out the zero-padded decimal
rendering that `strftime` performs. -/

/-- A wall-clock time at second granularity. -/
structure DateTime where
  year : Nat
  month : Nat
  day : Nat
  hour : Nat
  minute : Nat
  second : Nat
deriving DecidableEq, Repr

/-- The decimal digit character for `n` (meaningful for `n < 10`). -/
def digitChar (n : Nat) : Char := Char.ofNat (48 + n)

/-- Zero-padded two-digit decimal rendering (`%m`, `%d`, `%H`, `%M`, `%S`). -/
def twoDigits (n : Nat) : List Char := [digitChar (n / 10), digitChar (n % 10)]

/-- Zero-padded four-digit decimal rendering (`%Y` for four-digit years). -/
def fourDigits (n : Nat) : List Char := twoDigits (n / 100) ++ twoDigits (n % 100)

/-- The `%Y%m%d` date half of the timestamp. -/
def datePart (t : DateTime) : List Char :=
  fourDigits t.year ++ twoDigits t.month ++ twoDigits t.day

/-- The `%H%M%S` time half of the timestamp. -/
def timePart (t : DateTime) : List Char :=
  twoDigits t.hour ++ twoDigits t.minute ++ twoDigits t.second

/-- `datetime.strftime("%Y%m%d_%H%M%S")`. -/
def strftimeYmdHms (t : DateTime) : String :=
  String.mk (datePart t) ++ "_" ++ String.mk (timePart t)

/-- The default file name `f"{timestamp}_{video_id}.mp4"`. -/
def defaultFilename (now : DateTime) (video_id : String) : String :=
  strftimeYmdHms now ++ "_" ++ video_id ++ ".mp4"

/-- Field bounds under which the strftime rendering is faithful: a four-digit
year and two-digit remaining fields. -/
def DateTime.strftimeSafe (t : DateTime) : Prop :=
  1000 ≤ t.year ∧ t.year < 10000 ∧ t.month < 100 ∧ t.day < 100 ∧
    t.hour < 100 ∧ t.minute < 100 ∧ t.second < 100

instance (t : DateTime) : Decidable t.strftimeSafe := by
  unfold DateTime.strftimeSafe
  infer_instance

/-! ### The MCP tools (`server.py`)

Each tool is the body of its Python `try`/`except`: run the underlying
operation; on an exception return the tool's result type with the exception's
message in `error`.  State mutated before the exception (the cached client,
the filesystem) persists, as it does in Python. -/

/-- The `account_credits` tool. -/
def account_credits (ops : ExternalOps) (st : ServerState) :
    MCPGetCreditsResponse × ServerState :=
  match get_api_client st with
  | .error e => ({ error := some e }, st)
  | .ok (client, st') =>
    match ops.get_remaining_credits client with
    | .error e => ({ error := some e }, st')
    | .ok r => (r, st')

/-- The `list_available_voices` tool. -/
def list_available_voices (ops : ExternalOps) (st : ServerState) :
    MCPVoicesResponse × ServerState :=
  match get_api_client st with
  | .error e => ({ error := some e }, st)
  | .ok (client, st') =>
    match ops.get_voices client with
    | .error e => ({ error := some e }, st')
    | .ok r => (r, st')

/-- The `list_avatar_groups` tool (`include_public` defaults to `false`). -/
def list_avatar_groups (ops : ExternalOps) (st : ServerState)
    (include_public : Bool := false) : MCPAvatarGroupResponse × ServerState :=
  match get_api_client st with
  | .error e => ({ error := some e }, st)
  | .ok (client, st') =>
    match ops.list_avatar_groups client include_public with
    | .error e => ({ error := some e }, st')
    | .ok r => (r, st')

/-- The `list_avatars_in_group` tool. -/
def list_avatars_in_group (ops : ExternalOps) (st : ServerState)
    (group_id : String) : MCPAvatarsInGroupResponse × ServerState :=
  match get_api_client st with
  | .error e => ({ error := some e }, st)
  | .ok (client, st') =>
    match ops.get_avatars_in_group client group_id with
    | .error e => ({ error := some e }, st')
    | .ok r => (r, st')

/-- The `create_video` tool: build a `VideoGenerateRequest` with one input
segment and 1280×720 dimensions, then submit it. -/
def create_video (ops : ExternalOps) (st : ServerState) (input_text : String)
    (avatar_id : Option String := none) (voice_id : Option String := none)
    (title : String := "") : MCPVideoGenerateResponse × ServerState :=
  let request : VideoGenerateRequest :=
    { title := title
      video_inputs :=
        [{ character := { avatar_id := avatar_id }
           voice := { input_text := input_text, voice_id := voice_id } }]
      dimension := { width := 1280, height := 720 } }
  match get_api_client st with
  | .error e => ({ error := some e }, st)
  | .ok (client, st') =>
    match ops.generate_avatar_video client request with
    | .error e => ({ error := some e }, st')
    | .ok r => (r, st')

/-- The `check_video_status` tool. -/
def check_video_status (ops : ExternalOps) (st : ServerState)
    (video_id : String) : MCPVideoStatusResponse × ServerState :=
  match get_api_client st with
  | .error e => ({ error := some e }, st)
  | .ok (client, st') =>
    match ops.get_video_status client video_id with
    | .error e => ({ error := some e }, st')
    | .ok r => (r, st')

/-- The `wait_for_video` tool (`max_attempts` defaults to 60, `delay_seconds`
to 10). -/
def wait_for_video (ops : ExternalOps) (st : ServerState) (video_id : String)
    (max_attempts : Nat := 60) (delay_seconds : Nat := 10) :
    MCPVideoStatusResponse × ServerState :=
  match get_api_client st with
  | .error e => ({ error := some e }, st)
  | .ok (client, st') =>
    match ops.wait_for_video_completion client video_id max_attempts delay_seconds with
    | .error e => ({ error := some e }, st')
    | .ok r => (r, st')

/-- The error message `download_video` returns when the status query carries
no video URL. -/
def no_url_message : String :=
  "Video URL not available. Video may still be processing or failed."

/-- The `download_video` tool.  `tmpdir` models `tempfile.gettempdir()` and
`now` models `datetime.now()`.  A missing or empty `download_path` (Python's
`if not download_path`) selects the generated default path inside
`{tmpdir}/heygen_videos` after ensuring that directory exists. -/
def download_video (ops : ExternalOps) (st : ServerState) (fs : FS)
    (tmpdir : LocalPath) (now : DateTime) (video_id : String)
    (download_path : Option LocalPath := none) :
    MCPVideoGenerateResponse × ServerState × FS :=
  match get_api_client st with
  | .error e => ({ error := some e }, st, fs)
  | .ok (client, st') =>
    match ops.get_video_status client video_id with
    | .error e => ({ error := some e }, st', fs)
    | .ok status =>
      match status.video_url with
      | none => ({ error := some no_url_message }, st', fs)
      | some url =>
        let defaultPair : LocalPath × FS :=
          let temp_dir := tmpdir ++ ["heygen_videos"]
          (temp_dir ++ [defaultFilename now video_id], mkdirIfMissing temp_dir fs)
        let pathAndFs : LocalPath × FS :=
          match download_path with
          | none => defaultPair
          | some p => if p.isEmpty then defaultPair else (p, fs)
        match ops.download_video client url pathAndFs.1 pathAndFs.2 with
        | (fs2, .error e) => ({ error := some e }, st', fs2)
        | (fs2, .ok file_path) =>
          match ops.mkResource file_path with
          | .error e => ({ error := some e }, st', fs2)
          | .ok resource =>
            ({ video_id := some video_id
               status := some "downloaded"
               video_url := some url
               download_path := some file_path
               resource := some resource
               error := none }, st', fs2)

/-! ### Spec-modelled client operations -/

/-- Is this status response terminal (completed or failed)? -/
def isTerminalStatus (r : MCPVideoStatusResponse) : Bool :=
  r.status = some "completed" || r.status = some "failed"

/-- Modelled from the spec: the polling loop of
`HeyGenApiClient.wait_for_video_completion`, whose implementation lives in
`heygen_mcp.api_client` and is not under src/.  Spec §4.2: "repeatedly polls
… up to a maximum attempt count … until status is terminal (completed or
failed) or attempts are exhausted.  Returns the last observed status either
way."  `poll i` is the status observed by the `i`-th poll (0-based); `fuel`
is the number of attempts still allowed.  Returns the last observed status
together with the index one past the last poll issued, i.e. the total number
of polls when started at attempt 0. -/
def waitFrom (poll : Nat → MCPVideoStatusResponse) (attempt : Nat) :
    Nat → MCPVideoStatusResponse × Nat
  | 0 => (poll attempt, attempt + 1)
  | fuel + 1 =>
    let r := poll attempt
    if isTerminalStatus r || fuel == 0 then (r, attempt + 1)
    else waitFrom poll (attempt + 1) fuel

/-- Modelled from the spec: `HeyGenApiClient.wait_for_video_completion`
viewed as a function of the sequence of observed statuses.  Returns the last
observed status and the number of polls issued. -/
def wait_for_video_completion (poll : Nat → MCPVideoStatusResponse)
    (max_attempts : Nat) : MCPVideoStatusResponse × Nat :=
  waitFrom poll 0 max_attempts

/-- Modelled from the spec: `HeyGenApiClient.download_video`, whose
implementation lives in `heygen_mcp.api_client` and is not under src/.
Spec §4.1: "Binary download additionally streams response bytes to a
caller-specified local file path, creating parent directories as needed, and
returns the resolved absolute path."  The parent directory of the destination
is created, the file is written, and the path is returned. -/
def clientDownloadVideo (url : String) (path : LocalPath) (fs : FS) :
    FS × Except String LocalPath :=
  let _ := url
  let fs1 := mkdirIfMissing path.dropLast fs
  ({ fs1 with files := if path ∈ fs1.files then fs1.files else path :: fs1.files },
    .ok path)

theorem clientDownloadVideo_writes (url : String) (path : LocalPath) (fs : FS) :
    path.dropLast ∈ (clientDownloadVideo url path fs).1.dirs ∧
      path ∈ (clientDownloadVideo url path fs).1.files ∧
      (clientDownloadVideo url path fs).2 = .ok path := by
  refine ⟨?_, ?_, rfl⟩
  · exact mem_dirs_mkdirIfMissing _ _
  · unfold clientDownloadVideo
    by_cases h : path ∈ (mkdirIfMissing path.dropLast fs).files <;> simp [h]

/-! ### Claims -/

/-- C7: once `get_api_client` has successfully created a client, the state
caches it, and every later call returns that same client unchanged without
consulting the `HEYGEN_API_KEY` environment variable — the result is the same
for every value the variable may have been changed to in between. -/
theorem get_api_client_idempotent (st : ServerState) (c : HeyGenApiClient)
    (st' : ServerState) (h : get_api_client st = .ok (c, st')) :
    st'.api_client = some c ∧
      ∀ env : Option String,
        get_api_client { api_client := st'.api_client, heygen_api_key := env } =
          .ok (c, { api_client := st'.api_client, heygen_api_key := env }) := by
  have hc : st'.api_client = some c := by
    unfold get_api_client at h
    split at h
    · rename_i client hac
      injection h with h1
      injection h1 with hcl hst
      rw [← hst, hac, hcl]
    · split at h
      · exact absurd h (by simp)
      · split at h
        · exact absurd h (by simp)
        · injection h with h1
          injection h1 with hcl hst
          rw [← hst, ← hcl]
  refine ⟨hc, fun env => ?_⟩
  rw [hc]
  rfl

/-- Witness for `get_api_client_idempotent`: a concrete first call caches the
client built from the key `"key"`, and a second call after the environment
changed to `"changed"` returns the identical client. -/
theorem get_api_client_idempotent_witness :
    get_api_client { api_client := some ⟨"key"⟩, heygen_api_key := some "changed" } =
      .ok (⟨"key"⟩,
        { api_client := some ⟨"key"⟩, heygen_api_key := some "changed" }) :=
  (get_api_client_idempotent ⟨none, some "key"⟩ ⟨"key"⟩
    ⟨some ⟨"key"⟩, some "key"⟩ rfl).2 (some "changed")

/-- C9: with the shared client uninitialized and `HEYGEN_API_KEY` unset,
every one of the eight tools returns its normal result type carrying the
error string `"HEYGEN_API_KEY environment variable not set."` instead of
crashing. -/
theorem tools_surface_missing_api_key (ops : ExternalOps)
    (include_public : Bool) (group_id input_text title video_id : String)
    (avatar_id voice_id : Option String) (max_attempts delay_seconds : Nat)
    (fs : FS) (tmpdir : LocalPath) (now : DateTime) (dp : Option LocalPath) :
    account_credits ops ⟨none, none⟩ =
        ({ error := some missing_key_message }, ⟨none, none⟩) ∧
      list_available_voices ops ⟨none, none⟩ =
        ({ error := some missing_key_message }, ⟨none, none⟩) ∧
      list_avatar_groups ops ⟨none, none⟩ include_public =
        ({ error := some missing_key_message }, ⟨none, none⟩) ∧
      list_avatars_in_group ops ⟨none, none⟩ group_id =
        ({ error := some missing_key_message }, ⟨none, none⟩) ∧
      create_video ops ⟨none, none⟩ input_text avatar_id voice_id title =
        ({ error := some missing_key_message }, ⟨none, none⟩) ∧
      check_video_status ops ⟨none, none⟩ video_id =
        ({ error := some missing_key_message }, ⟨none, none⟩) ∧
      wait_for_video ops ⟨none, none⟩ video_id max_attempts delay_seconds =
        ({ error := some missing_key_message }, ⟨none, none⟩) ∧
      download_video ops ⟨none, none⟩ fs tmpdir now video_id dp =
        ({ error := some missing_key_message }, ⟨none, none⟩, fs) :=
  ⟨rfl, rfl, rfl, rfl, rfl, rfl, rfl, rfl⟩

/-! ### Concrete external-operation records used by witnesses -/

/-- An external-operations record every method of which raises `e`. -/
def errorOps (e : String) : ExternalOps where
  get_remaining_credits := fun _ => .error e
  get_voices := fun _ => .error e
  list_avatar_groups := fun _ _ => .error e
  get_avatars_in_group := fun _ _ => .error e
  generate_avatar_video := fun _ _ => .error e
  get_video_status := fun _ _ => .error e
  wait_for_video_completion := fun _ _ _ _ => .error e
  download_video := fun _ _ _ fs => (fs, .error e)
  mkResource := fun _ => .error e

/-- A completed status response with a video URL. -/
def completedStatus : MCPVideoStatusResponse :=
  { status := some "completed", video_url := some "https://x/y.mp4" }

/-- Operations whose status query succeeds with `completedStatus` but whose
file-stream step raises. -/
def streamFailOps : ExternalOps :=
  { errorOps "stream failed" with
    get_video_status := fun _ _ => .ok completedStatus }

/-- Operations whose status query and download succeed but whose `Resource`
construction raises. -/
def resourceFailOps : ExternalOps :=
  { errorOps "resource failed" with
    get_video_status := fun _ _ => .ok completedStatus
    download_video := fun _ u p fs => clientDownloadVideo u p fs }

/-- Operations for which the whole download pipeline succeeds. -/
def okDownloadOps : ExternalOps :=
  { errorOps "unused" with
    get_video_status := fun _ _ => .ok completedStatus
    download_video := fun _ u p fs => clientDownloadVideo u p fs
    mkResource := fun p => .ok ⟨p⟩ }

/-- C1: the dispatch boundary converts every exception of the underlying
operation into the tool's normal result type with the exception's message in
the `error` field, for all eight tools and at every stage — client
construction (`st0`, where `get_api_client` raises `e0`), the HTTP call
(`st`, where each client method raises `e`), and result handling inside
`download_video` (the file-stream step raising `e2` and the `Resource`
construction raising `e3`).  In the embedding each tool is a total function
into its result type, so no raw exception can pass the boundary. -/
theorem dispatch_boundary_converts_exceptions
    (ops ops2 ops3 : ExternalOps) (st0 st : ServerState) (e0 e e2 e3 : String)
    (c : HeyGenApiClient) (st' : ServerState)
    (include_public : Bool) (group_id input_text title video_id url : String)
    (avatar_id voice_id : Option String) (max_attempts delay_seconds : Nat)
    (fs fs2 fs3 : FS) (tmpdir : LocalPath) (now : DateTime)
    (dp : Option LocalPath) (p : LocalPath) (status : MCPVideoStatusResponse)
    (fp : LocalPath)
    (h0 : get_api_client st0 = .error e0)
    (hget : get_api_client st = .ok (c, st'))
    (hcred : ops.get_remaining_credits c = .error e)
    (hvoices : ops.get_voices c = .error e)
    (hgroups : ops.list_avatar_groups c include_public = .error e)
    (havatars : ops.get_avatars_in_group c group_id = .error e)
    (hgen : ∀ r, ops.generate_avatar_video c r = .error e)
    (hstatus : ops.get_video_status c video_id = .error e)
    (hwait : ops.wait_for_video_completion c video_id max_attempts delay_seconds
      = .error e)
    (hp : p ≠ [])
    (hst2 : ops2.get_video_status c video_id = .ok status)
    (hurl : status.video_url = some url)
    (hdl2 : ops2.download_video c url p fs = (fs2, .error e2))
    (hst3 : ops3.get_video_status c video_id = .ok status)
    (hdl3 : ops3.download_video c url p fs = (fs3, .ok fp))
    (hres3 : ops3.mkResource fp = .error e3) :
    account_credits ops st0 = ({ error := some e0 }, st0) ∧
      list_available_voices ops st0 = ({ error := some e0 }, st0) ∧
      list_avatar_groups ops st0 include_public = ({ error := some e0 }, st0) ∧
      list_avatars_in_group ops st0 group_id = ({ error := some e0 }, st0) ∧
      create_video ops st0 input_text avatar_id voice_id title =
        ({ error := some e0 }, st0) ∧
      check_video_status ops st0 video_id = ({ error := some e0 }, st0) ∧
      wait_for_video ops st0 video_id max_attempts delay_seconds =
        ({ error := some e0 }, st0) ∧
      download_video ops st0 fs tmpdir now video_id dp =
        ({ error := some e0 }, st0, fs) ∧
      account_credits ops st = ({ error := some e }, st') ∧
      list_available_voices ops st = ({ error := some e }, st') ∧
      list_avatar_groups ops st include_public = ({ error := some e }, st') ∧
      list_avatars_in_group ops st group_id = ({ error := some e }, st') ∧
      create_video ops st input_text avatar_id voice_id title =
        ({ error := some e }, st') ∧
      check_video_status ops st video_id = ({ error := some e }, st') ∧
      wait_for_video ops st video_id max_attempts delay_seconds =
        ({ error := some e }, st') ∧
      download_video ops st fs tmpdir now video_id dp =
        ({ error := some e }, st', fs) ∧
      download_video ops2 st fs tmpdir now video_id (some p) =
        ({ error := some e2 }, st', fs2) ∧
      download_video ops3 st fs tmpdir now video_id (some p) =
        ({ error := some e3 }, st', fs3) := by
  have hpe : p.isEmpty = false := by
    cases p with
    | nil => exact absurd rfl hp
    | cons a l => rfl
  refine ⟨?_, ?_, ?_, ?_, ?_, ?_, ?_, ?_, ?_, ?_, ?_, ?_, ?_, ?_, ?_, ?_, ?_, ?_⟩
  · simp [account_credits, h0]
  · simp [list_available_voices, h0]
  · simp [list_avatar_groups, h0]
  · simp [list_avatars_in_group, h0]
  · simp [create_video, h0]
  · simp [check_video_status, h0]
  · simp [wait_for_video, h0]
  · simp [download_video, h0]
  · simp [account_credits, hget, hcred]
  · simp [list_available_voices, hget, hvoices]
  · simp [list_avatar_groups, hget, hgroups]
  · simp [list_avatars_in_group, hget, havatars]
  · simp [create_video, hget, hgen]
  · simp [check_video_status, hget, hstatus]
  · simp [wait_for_video, hget, hwait]
  · simp [download_video, hget, hstatus]
  · simp [download_video, hget, hst2, hurl, hpe, hdl2]
  · simp [download_video, hget, hst3, hurl, hpe, hdl3, hres3]

/-- Witness for `dispatch_boundary_converts_exceptions`: every hypothesis is
discharged at concrete inputs (the all-raising `errorOps "boom"`, the
stream-failing and resource-failing operation records, a state with no key
and a state with a cached client), and the first conjunct is read back. -/
theorem dispatch_boundary_converts_exceptions_witness :
    account_credits (errorOps "boom") ⟨none, none⟩ =
      ({ error := some missing_key_message }, ⟨none, none⟩) :=
  (dispatch_boundary_converts_exceptions
    (errorOps "boom") streamFailOps resourceFailOps
    ⟨none, none⟩ ⟨some ⟨"k"⟩, none⟩
    missing_key_message "boom" "stream failed" "resource failed"
    ⟨"k"⟩ ⟨some ⟨"k"⟩, none⟩
    false "g1" "hello" "t" "vid1" "https://x/y.mp4"
    none none 60 10
    ⟨[], []⟩ ⟨[], []⟩ (clientDownloadVideo "https://x/y.mp4" ["out.mp4"] ⟨[], []⟩).1
    ["tmp"] ⟨2025, 1, 2, 3, 4, 5⟩
    none ["out.mp4"] completedStatus ["out.mp4"]
    rfl rfl rfl rfl rfl rfl (fun _ => rfl) rfl rfl
    (by decide) rfl rfl rfl rfl rfl rfl).1

/-- Inductive invariant of the polling loop: starting at `attempt` with
`fuel` attempts allowed, the loop stops at a position between `attempt + 1`
and `attempt + max fuel 1`, and returns exactly the status observed by its
last poll. -/
theorem waitFrom_spec (poll : Nat → MCPVideoStatusResponse) (fuel : Nat) :
    ∀ attempt : Nat,
      attempt + 1 ≤ (waitFrom poll attempt fuel).2 ∧
        (waitFrom poll attempt fuel).2 ≤ attempt + max fuel 1 ∧
        (waitFrom poll attempt fuel).1 = poll ((waitFrom poll attempt fuel).2 - 1) := by
  induction fuel with
  | zero =>
    intro attempt
    refine ⟨Nat.le_refl _, ?_, by simp [waitFrom]⟩
    simp [waitFrom]
  | succ fuel ih =>
    intro attempt
    by_cases hstop : (isTerminalStatus (poll attempt) || fuel == 0) = true
    · have hw : waitFrom poll attempt (fuel + 1) = (poll attempt, attempt + 1) := by
        simp only [waitFrom, hstop, if_true]
      rw [hw]
      refine ⟨Nat.le_refl _, ?_, by simp⟩
      have h1 : 1 ≤ max (fuel + 1) 1 := le_max_right _ _
      omega
    · have hfuel : fuel ≠ 0 := by
        intro h
        simp [h] at hstop
      have hw : waitFrom poll attempt (fuel + 1) = waitFrom poll (attempt + 1) fuel := by
        simp [waitFrom, hstop]
      rw [hw]
      obtain ⟨ih1, ih2, ih3⟩ := ih (attempt + 1)
      refine ⟨by omega, ?_, ih3⟩
      have hmax : max fuel 1 = fuel := Nat.max_eq_left (by omega)
      have hmax1 : max (fuel + 1) 1 = fuel + 1 := Nat.max_eq_left (by omega)
      omega

/-- C2: for every poll behaviour and every `max_attempts ≥ 1`, the wait loop
issues between 1 and `max_attempts` polls and terminates, returning exactly
the status observed by its last poll; the `wait_for_video` tool passes that
status-bearing result through unchanged (not as an error), also when the
attempt count was exhausted. -/
theorem wait_for_video_poll_bound (poll : Nat → MCPVideoStatusResponse)
    (max_attempts : Nat) (hm : 1 ≤ max_attempts)
    (ops : ExternalOps) (st : ServerState) (c : HeyGenApiClient)
    (st' : ServerState) (video_id : String) (delay_seconds : Nat)
    (hget : get_api_client st = .ok (c, st'))
    (hwait : ops.wait_for_video_completion c video_id max_attempts delay_seconds =
      .ok (wait_for_video_completion poll max_attempts).1) :
    1 ≤ (wait_for_video_completion poll max_attempts).2 ∧
      (wait_for_video_completion poll max_attempts).2 ≤ max_attempts ∧
      (wait_for_video_completion poll max_attempts).1 =
        poll ((wait_for_video_completion poll max_attempts).2 - 1) ∧
      wait_for_video ops st video_id max_attempts delay_seconds =
        ((wait_for_video_completion poll max_attempts).1, st') := by
  obtain ⟨h1, h2, h3⟩ := waitFrom_spec poll max_attempts 0
  have hmax : max max_attempts 1 = max_attempts := Nat.max_eq_left hm
  unfold wait_for_video_completion at *
  refine ⟨by omega, by omega, h3, ?_⟩
  simp [wait_for_video, hget, hwait]

/-- A pending (non-terminal) status response. -/
def pendingStatus : MCPVideoStatusResponse := { status := some "processing" }

/-- Operations whose wait method runs the modelled polling loop over an
always-pending status sequence. -/
def pendingWaitOps : ExternalOps :=
  { errorOps "unused" with
    wait_for_video_completion := fun _ _ m _ =>
      .ok (wait_for_video_completion (fun _ => pendingStatus) m).1 }

/-- Witness for `wait_for_video_poll_bound`: with an always-pending status
and `max_attempts = 3` the loop issues between 1 and 3 polls, returns the
last pending status, and the tool reports it as a normal result. -/
theorem wait_for_video_poll_bound_witness :
    1 ≤ (wait_for_video_completion (fun _ => pendingStatus) 3).2 ∧
      (wait_for_video_completion (fun _ => pendingStatus) 3).2 ≤ 3 ∧
      (wait_for_video_completion (fun _ => pendingStatus) 3).1 =
        pendingStatus ∧
      wait_for_video pendingWaitOps ⟨some ⟨"k"⟩, none⟩ "vid1" 3 10 =
        ((wait_for_video_completion (fun _ => pendingStatus) 3).1,
          ⟨some ⟨"k"⟩, none⟩) := by
  obtain ⟨h1, h2, h3, h4⟩ := wait_for_video_poll_bound (fun _ => pendingStatus) 3
    (by decide) pendingWaitOps ⟨some ⟨"k"⟩, none⟩ ⟨"k"⟩ ⟨some ⟨"k"⟩, none⟩
    "vid1" 10 rfl rfl
  exact ⟨h1, h2, h3, h4⟩

/-- Operations whose status query succeeds but carries no video URL. -/
def noUrlOps : ExternalOps :=
  { errorOps "unused" with
    get_video_status := fun _ _ => .ok pendingStatus }

/-- C3: when the re-queried status carries no video URL, `download_video`
returns the descriptive error
`"Video URL not available. Video may still be processing or failed."` and
leaves the filesystem exactly as it was — no file is written. -/
theorem download_missing_url_writes_nothing (ops : ExternalOps)
    (st : ServerState) (c : HeyGenApiClient) (st' : ServerState) (fs : FS)
    (tmpdir : LocalPath) (now : DateTime) (video_id : String)
    (dp : Option LocalPath) (status : MCPVideoStatusResponse)
    (hget : get_api_client st = .ok (c, st'))
    (hst : ops.get_video_status c video_id = .ok status)
    (hurl : status.video_url = none) :
    download_video ops st fs tmpdir now video_id dp =
      ({ error := some no_url_message }, st', fs) := by
  simp [download_video, hget, hst, hurl]

/-- Witness for `download_missing_url_writes_nothing`: a concrete pending
status without URL yields the descriptive error and an unchanged (empty)
filesystem. -/
theorem download_missing_url_writes_nothing_witness :
    download_video noUrlOps ⟨some ⟨"k"⟩, none⟩ ⟨[], []⟩ ["tmp"]
        ⟨2025, 1, 2, 3, 4, 5⟩ "vid1" none =
      ({ error := some no_url_message }, ⟨some ⟨"k"⟩, none⟩, ⟨[], []⟩) :=
  download_missing_url_writes_nothing noUrlOps ⟨some ⟨"k"⟩, none⟩ ⟨"k"⟩
    ⟨some ⟨"k"⟩, none⟩ ⟨[], []⟩ ["tmp"] ⟨2025, 1, 2, 3, 4, 5⟩ "vid1" none
    pendingStatus rfl rfl rfl

/-- C6: with no avatar id and no voice id (and the default empty title),
`create_video` submits exactly one `VideoGenerateRequest` — empty title, a
single video input segment whose character and voice reference the (absent)
avatar and voice ids and the input text, and 1280×720 dimensions — and a
remote created response with id `"abc123"` surfaces unchanged as the success
result. -/
theorem create_video_default_request (ops : ExternalOps) (st : ServerState)
    (c : HeyGenApiClient) (st' : ServerState) (input_text : String)
    (resp : MCPVideoGenerateResponse)
    (hget : get_api_client st = .ok (c, st'))
    (hgen : ops.generate_avatar_video c
      { title := ""
        video_inputs :=
          [{ character := { avatar_id := none }
             voice := { input_text := input_text, voice_id := none } }]
        dimension := { width := 1280, height := 720 } } = .ok resp)
    (hid : resp.video_id = some "abc123") (herr : resp.error = none) :
    create_video ops st input_text none none "" = (resp, st') ∧
      (create_video ops st input_text none none "").1.video_id = some "abc123" ∧
      (create_video ops st input_text none none "").1.error = none ∧
      ({ title := ""
         video_inputs :=
           [{ character := { avatar_id := none }
              voice := { input_text := input_text, voice_id := none } }]
         dimension := { width := 1280, height := 720 } } :
           VideoGenerateRequest).video_inputs.length = 1 := by
  have h1 : create_video ops st input_text none none "" = (resp, st') := by
    simp [create_video, hget, hgen]
  exact ⟨h1, by rw [h1]; exact hid, by rw [h1]; exact herr, rfl⟩

/-- Operations whose generation endpoint answers with a created response of
id `"abc123"`. -/
def createdOps : ExternalOps :=
  { errorOps "unused" with
    generate_avatar_video := fun _ _ => .ok { video_id := some "abc123" } }

/-- Witness for `create_video_default_request`: `create_video("Hello world")`
with no avatar/voice ids against a mocked created response surfaces the id
`"abc123"`. -/
theorem create_video_default_request_witness :
    create_video createdOps ⟨some ⟨"k"⟩, none⟩ "Hello world" none none "" =
      ({ video_id := some "abc123" }, ⟨some ⟨"k"⟩, none⟩) :=
  (create_video_default_request createdOps ⟨some ⟨"k"⟩, none⟩ ⟨"k"⟩
    ⟨some ⟨"k"⟩, none⟩ "Hello world" { video_id := some "abc123" }
    rfl rfl rfl rfl).1

/-- C5 (amended): when the status query yields a video URL and the download
and `Resource` construction succeed, `download_video` returns the final local
file path reported by the client alongside the echoed job id, the fixed
status string `"downloaded"` (not the queried job status), and the remote
video URL obtained from the status query. -/
theorem download_success_payload_amended (ops : ExternalOps)
    (st : ServerState) (c : HeyGenApiClient) (st' : ServerState)
    (fs fs2 : FS) (tmpdir : LocalPath) (now : DateTime) (video_id : String)
    (p fp : LocalPath) (status : MCPVideoStatusResponse) (url : String)
    (res : Resource)
    (hget : get_api_client st = .ok (c, st'))
    (hst : ops.get_video_status c video_id = .ok status)
    (hurl : status.video_url = some url)
    (hp : p ≠ [])
    (hdl : ops.download_video c url p fs = (fs2, .ok fp))
    (hres : ops.mkResource fp = .ok res) :
    download_video ops st fs tmpdir now video_id (some p) =
      ({ video_id := some video_id
         status := some "downloaded"
         video_url := some url
         download_path := some fp
         resource := some res
         error := none }, st', fs2) := by
  have hpe : p.isEmpty = false := by
    cases p with
    | nil => exact absurd rfl hp
    | cons a l => rfl
  simp [download_video, hget, hst, hurl, hpe, hdl, hres]

/-- Witness for `download_success_payload_amended` at concrete inputs: the
success result carries the path, the echoed id, status `"downloaded"` and the
queried URL. -/
theorem download_success_payload_amended_witness :
    download_video okDownloadOps ⟨some ⟨"k"⟩, none⟩ ⟨[], []⟩ ["tmp"]
        ⟨2025, 1, 2, 3, 4, 5⟩ "vid1" (some ["videos", "out.mp4"]) =
      ({ video_id := some "vid1"
         status := some "downloaded"
         video_url := some "https://x/y.mp4"
         download_path := some ["videos", "out.mp4"]
         resource := some ⟨["videos", "out.mp4"]⟩
         error := none }, ⟨some ⟨"k"⟩, none⟩,
        (clientDownloadVideo "https://x/y.mp4" ["videos", "out.mp4"] ⟨[], []⟩).1) :=
  download_success_payload_amended okDownloadOps ⟨some ⟨"k"⟩, none⟩ ⟨"k"⟩
    ⟨some ⟨"k"⟩, none⟩ ⟨[], []⟩
    (clientDownloadVideo "https://x/y.mp4" ["videos", "out.mp4"] ⟨[], []⟩).1
    ["tmp"] ⟨2025, 1, 2, 3, 4, 5⟩ "vid1" ["videos", "out.mp4"]
    ["videos", "out.mp4"] completedStatus "https://x/y.mp4"
    ⟨["videos", "out.mp4"]⟩ rfl rfl rfl (by decide) rfl rfl

/-- C5 (counterexample): a fully successful concrete `download_video` run
whose queried job status is `"completed"` returns a result whose status field
is the literal `"downloaded"`, so the result does not carry the job's status
as the claim states. -/
theorem download_success_status_counterexample :
    okDownloadOps.get_video_status ⟨"k"⟩ "vid1" = .ok completedStatus ∧
      completedStatus.status = some "completed" ∧
      (download_video okDownloadOps ⟨some ⟨"k"⟩, none⟩ ⟨[], []⟩ ["tmp"]
          ⟨2025, 1, 2, 3, 4, 5⟩ "vid1" (some ["videos", "out.mp4"])).1.error
        = none ∧
      (download_video okDownloadOps ⟨some ⟨"k"⟩, none⟩ ⟨[], []⟩ ["tmp"]
          ⟨2025, 1, 2, 3, 4, 5⟩ "vid1" (some ["videos", "out.mp4"])).1.status
        = some "downloaded" ∧
      ¬ (download_video okDownloadOps ⟨some ⟨"k"⟩, none⟩ ⟨[], []⟩ ["tmp"]
          ⟨2025, 1, 2, 3, 4, 5⟩ "vid1" (some ["videos", "out.mp4"])).1.status
        = completedStatus.status := by
  refine ⟨rfl, rfl, rfl, rfl, ?_⟩
  decide

/-- C8: for a caller-supplied destination path whose parent directory does
not exist, the download pipeline creates the parent directory rather than
failing, writes the file there, and the tool reports no error.  The
parent-directory creation is performed by the client's download method
(`clientDownloadVideo`, modelled from the spec). -/
theorem download_creates_missing_parent_dir (ops : ExternalOps)
    (st : ServerState) (c : HeyGenApiClient) (st' : ServerState) (fs : FS)
    (tmpdir : LocalPath) (now : DateTime) (video_id : String) (p : LocalPath)
    (status : MCPVideoStatusResponse) (url : String) (res : Resource)
    (hget : get_api_client st = .ok (c, st'))
    (hst : ops.get_video_status c video_id = .ok status)
    (hurl : status.video_url = some url)
    (hp : p ≠ [])
    (hpar : p.dropLast ∉ fs.dirs)
    (hdl : ops.download_video c url p fs = clientDownloadVideo url p fs)
    (hres : ops.mkResource p = .ok res) :
    p.dropLast ∈
        (download_video ops st fs tmpdir now video_id (some p)).2.2.dirs ∧
      p ∈ (download_video ops st fs tmpdir now video_id (some p)).2.2.files ∧
      (download_video ops st fs tmpdir now video_id (some p)).1.error = none := by
  have hpe : p.isEmpty = false := by
    cases p with
    | nil => exact absurd rfl hp
    | cons a l => rfl
  obtain ⟨hd, hf, hok⟩ := clientDownloadVideo_writes url p fs
  have heq : download_video ops st fs tmpdir now video_id (some p) =
      ({ video_id := some video_id
         status := some "downloaded"
         video_url := some url
         download_path := some p
         resource := some res
         error := none }, st', (clientDownloadVideo url p fs).1) := by
    simp only [download_video, hget, hst, hurl]
    simp only [hpe, Bool.false_eq_true, if_false, hdl]
    rw [show (clientDownloadVideo url p fs) =
      ((clientDownloadVideo url p fs).1, (clientDownloadVideo url p fs).2) from rfl,
      hok]
    simp [hres]
  rw [heq]
  exact ⟨hd, hf, rfl⟩

/-- Witness for `download_creates_missing_parent_dir`: downloading to
`videos/out.mp4` on an empty filesystem creates the `videos` directory,
writes the file, and reports no error. -/
theorem download_creates_missing_parent_dir_witness :
    (["videos", "out.mp4"] : LocalPath).dropLast ∈
        (download_video okDownloadOps ⟨some ⟨"k"⟩, none⟩ ⟨[], []⟩ ["tmp"]
          ⟨2025, 1, 2, 3, 4, 5⟩ "vid1" (some ["videos", "out.mp4"])).2.2.dirs ∧
      (["videos", "out.mp4"] : LocalPath) ∈
        (download_video okDownloadOps ⟨some ⟨"k"⟩, none⟩ ⟨[], []⟩ ["tmp"]
          ⟨2025, 1, 2, 3, 4, 5⟩ "vid1" (some ["videos", "out.mp4"])).2.2.files ∧
      (download_video okDownloadOps ⟨some ⟨"k"⟩, none⟩ ⟨[], []⟩ ["tmp"]
          ⟨2025, 1, 2, 3, 4, 5⟩ "vid1"
          (some ["videos", "out.mp4"])).1.error = none :=
  download_creates_missing_parent_dir okDownloadOps ⟨some ⟨"k"⟩, none⟩ ⟨"k"⟩
    ⟨some ⟨"k"⟩, none⟩ ⟨[], []⟩ ["tmp"] ⟨2025, 1, 2, 3, 4, 5⟩ "vid1"
    ["videos", "out.mp4"] completedStatus "https://x/y.mp4"
    ⟨["videos", "out.mp4"]⟩ rfl rfl rfl (by decide) (by decide) rfl rfl

/-- C10: an error result from `download_video` does not imply no file was
written: when the client's download step has already written the file and a
later step (here the `Resource` construction) raises, the tool returns a
result carrying only the error string while every file written by the
download step — in particular `q` — remains on the filesystem the tool
returns. -/
theorem download_error_after_write_keeps_file (ops : ExternalOps)
    (st : ServerState) (c : HeyGenApiClient) (st' : ServerState)
    (fs fs2 : FS) (tmpdir : LocalPath) (now : DateTime) (video_id : String)
    (p fp q : LocalPath) (status : MCPVideoStatusResponse) (url e : String)
    (hget : get_api_client st = .ok (c, st'))
    (hst : ops.get_video_status c video_id = .ok status)
    (hurl : status.video_url = some url)
    (hp : p ≠ [])
    (hdl : ops.download_video c url p fs = (fs2, .ok fp))
    (hwrote : q ∈ fs2.files)
    (hres : ops.mkResource fp = .error e) :
    (download_video ops st fs tmpdir now video_id (some p)).1 =
        { error := some e } ∧
      q ∈ (download_video ops st fs tmpdir now video_id (some p)).2.2.files := by
  have hpe : p.isEmpty = false := by
    cases p with
    | nil => exact absurd rfl hp
    | cons a l => rfl
  have heq : download_video ops st fs tmpdir now video_id (some p) =
      ({ error := some e }, st', fs2) := by
    simp [download_video, hget, hst, hurl, hpe, hdl, hres]
  rw [heq]
  exact ⟨rfl, hwrote⟩

/-- Witness for `download_error_after_write_keeps_file`: with a failing
`Resource` construction the concrete run returns only the error string
`"resource failed"` while `videos/out.mp4` remains written. -/
theorem download_error_after_write_keeps_file_witness :
    (download_video resourceFailOps ⟨some ⟨"k"⟩, none⟩ ⟨[], []⟩ ["tmp"]
          ⟨2025, 1, 2, 3, 4, 5⟩ "vid1" (some ["videos", "out.mp4"])).1 =
        { error := some "resource failed" } ∧
      (["videos", "out.mp4"] : LocalPath) ∈
        (download_video resourceFailOps ⟨some ⟨"k"⟩, none⟩ ⟨[], []⟩ ["tmp"]
          ⟨2025, 1, 2, 3, 4, 5⟩ "vid1" (some ["videos", "out.mp4"])).2.2.files :=
  download_error_after_write_keeps_file resourceFailOps ⟨some ⟨"k"⟩, none⟩
    ⟨"k"⟩ ⟨some ⟨"k"⟩, none⟩ ⟨[], []⟩
    (clientDownloadVideo "https://x/y.mp4" ["videos", "out.mp4"] ⟨[], []⟩).1
    ["tmp"] ⟨2025, 1, 2, 3, 4, 5⟩ "vid1" ["videos", "out.mp4"]
    ["videos", "out.mp4"] ["videos", "out.mp4"] completedStatus
    "https://x/y.mp4" "resource failed" rfl rfl rfl (by decide) rfl
    (by decide) rfl

/-! ### Digit rendering lemmas for the default-filename claim -/

theorem digitChar_toNat (a : Nat) (h : a < 10) : (digitChar a).toNat = 48 + a := by
  unfold digitChar
  interval_cases a <;> decide

theorem digitChar_isDigit (a : Nat) (h : a < 10) : (digitChar a).isDigit = true := by
  unfold digitChar
  interval_cases a <;> decide

theorem digitChar_inj (a b : Nat) (ha : a < 10) (hb : b < 10)
    (h : digitChar a = digitChar b) : a = b := by
  have h2 := congrArg Char.toNat h
  rw [digitChar_toNat a ha, digitChar_toNat b hb] at h2
  omega

theorem twoDigits_all_digits (n : Nat) (h : n < 100) :
    (twoDigits n).all Char.isDigit = true := by
  simp [twoDigits, digitChar_isDigit (n / 10) (by omega),
    digitChar_isDigit (n % 10) (by omega)]

theorem twoDigits_inj (n m : Nat) (hn : n < 100) (hm : m < 100)
    (h : twoDigits n = twoDigits m) : n = m := by
  simp only [twoDigits, List.cons.injEq, and_true] at h
  obtain ⟨h1, h2⟩ := h
  have e1 := digitChar_inj _ _ (by omega) (by omega) h1
  have e2 := digitChar_inj _ _ (by omega) (by omega) h2
  omega

theorem fourDigits_all_digits (n : Nat) (h : n < 10000) :
    (fourDigits n).all Char.isDigit = true := by
  simp [fourDigits, List.all_append, twoDigits_all_digits (n / 100) (by omega),
    twoDigits_all_digits (n % 100) (by omega)]

theorem fourDigits_inj (n m : Nat) (hn : n < 10000) (hm : m < 10000)
    (h : fourDigits n = fourDigits m) : n = m := by
  obtain ⟨h1, h2⟩ := List.append_inj h rfl
  have e1 := twoDigits_inj _ _ (by omega) (by omega) h1
  have e2 := twoDigits_inj _ _ (by omega) (by omega) h2
  omega

theorem datePart_length (t : DateTime) : (datePart t).length = 8 := rfl

theorem timePart_length (t : DateTime) : (timePart t).length = 6 := rfl

theorem datePart_all_digits (t : DateTime) (h : t.strftimeSafe) :
    (datePart t).all Char.isDigit = true := by
  obtain ⟨-, h1, h2, h3, -, -, -⟩ := h
  simp [datePart, List.all_append, fourDigits_all_digits t.year h1,
    twoDigits_all_digits t.month h2, twoDigits_all_digits t.day h3]

theorem timePart_all_digits (t : DateTime) (h : t.strftimeSafe) :
    (timePart t).all Char.isDigit = true := by
  obtain ⟨-, -, -, -, h4, h5, h6⟩ := h
  simp [timePart, List.all_append, twoDigits_all_digits t.hour h4,
    twoDigits_all_digits t.minute h5, twoDigits_all_digits t.second h6]

theorem datePart_inj (t t' : DateTime) (ht : t.strftimeSafe)
    (ht' : t'.strftimeSafe) (h : datePart t = datePart t') :
    t.year = t'.year ∧ t.month = t'.month ∧ t.day = t'.day := by
  obtain ⟨-, hy, hmo, hd, -, -, -⟩ := ht
  obtain ⟨-, hy', hmo', hd', -, -, -⟩ := ht'
  unfold datePart at h
  rw [List.append_assoc, List.append_assoc] at h
  obtain ⟨h1, h23⟩ := List.append_inj h (by rfl)
  obtain ⟨h2, h3⟩ := List.append_inj h23 (by rfl)
  exact ⟨fourDigits_inj _ _ hy hy' h1, twoDigits_inj _ _ hmo hmo' h2,
    twoDigits_inj _ _ hd hd' h3⟩

theorem timePart_inj (t t' : DateTime) (ht : t.strftimeSafe)
    (ht' : t'.strftimeSafe) (h : timePart t = timePart t') :
    t.hour = t'.hour ∧ t.minute = t'.minute ∧ t.second = t'.second := by
  obtain ⟨-, -, -, -, hh, hmi, hs⟩ := ht
  obtain ⟨-, -, -, -, hh', hmi', hs'⟩ := ht'
  unfold timePart at h
  rw [List.append_assoc, List.append_assoc] at h
  obtain ⟨h1, h23⟩ := List.append_inj h (by rfl)
  obtain ⟨h2, h3⟩ := List.append_inj h23 (by rfl)
  exact ⟨twoDigits_inj _ _ hh hh' h1, twoDigits_inj _ _ hmi hmi' h2,
    twoDigits_inj _ _ hs hs' h3⟩

theorem strftimeYmdHms_data (t : DateTime) :
    (strftimeYmdHms t).data = (datePart t ++ ['_']) ++ timePart t := by
  simp [strftimeYmdHms, String.data_append]

theorem strftimeYmdHms_inj (t t' : DateTime) (ht : t.strftimeSafe)
    (ht' : t'.strftimeSafe) (h : strftimeYmdHms t = strftimeYmdHms t') :
    t = t' := by
  have hd := congrArg String.data h
  rw [strftimeYmdHms_data, strftimeYmdHms_data] at hd
  obtain ⟨h1, h2⟩ := List.append_inj hd (by simp [datePart_length])
  obtain ⟨h3, -⟩ := List.append_inj h1 (by simp [datePart_length])
  obtain ⟨ey, emo, ed⟩ := datePart_inj t t' ht ht' h3
  obtain ⟨eh, emi, es⟩ := timePart_inj t t' ht ht' h2
  cases t
  cases t'
  simp_all

theorem defaultFilename_data (now : DateTime) (video_id : String) :
    (defaultFilename now video_id).data =
      ((((datePart now ++ ['_']) ++ timePart now) ++ ['_']) ++ video_id.data)
        ++ (".mp4").data := by
  simp [defaultFilename, String.data_append, strftimeYmdHms_data]

theorem defaultFilename_inj (now now' : DateTime) (video_id : String)
    (ht : now.strftimeSafe) (ht' : now'.strftimeSafe)
    (h : defaultFilename now video_id = defaultFilename now' video_id) :
    now = now' := by
  have hd := congrArg String.data h
  rw [defaultFilename_data, defaultFilename_data] at hd
  obtain ⟨h1, -⟩ := List.append_inj' hd rfl
  obtain ⟨h2, -⟩ := List.append_inj' h1 rfl
  obtain ⟨h3, -⟩ := List.append_inj' h2 rfl
  apply strftimeYmdHms_inj now now' ht ht'
  have h4 : (strftimeYmdHms now).data = (strftimeYmdHms now').data := by
    rw [strftimeYmdHms_data, strftimeYmdHms_data]
    exact h3
  exact String.ext h4

/-- The filename pattern claim C4 asserts for default download paths: a
contiguous run of 14 decimal digits, then an underscore, the job id, and the
`.mp4` extension. -/
def fourteenDigitPattern (filename job_id : String) : Prop :=
  ∃ ts : List Char,
    filename.data = ts ++ ('_' :: (job_id.data ++ (".mp4").data)) ∧
      ts.length = 14 ∧ ts.all Char.isDigit = true

/-- C4 (counterexample): at the concrete time 2025-01-02 03:04:05 with job id
`"abc123"`, the default destination the tool produces is
`tmp/heygen_videos/20250102_030405_abc123.mp4`; the timestamp's 14 digits are
split by an underscore after the date, so the filename does not match the
claimed `{14-digit-timestamp}_{job_id}.mp4` pattern. -/
theorem download_default_filename_pattern_counterexample :
    (download_video okDownloadOps ⟨some ⟨"k"⟩, none⟩ ⟨[], []⟩ ["tmp"]
        ⟨2025, 1, 2, 3, 4, 5⟩ "abc123" none).1.download_path =
      some ["tmp", "heygen_videos", "20250102_030405_abc123.mp4"] ∧
      defaultFilename ⟨2025, 1, 2, 3, 4, 5⟩ "abc123" =
        "20250102_030405_abc123.mp4" ∧
      ¬ fourteenDigitPattern (defaultFilename ⟨2025, 1, 2, 3, 4, 5⟩ "abc123")
        "abc123" := by
  refine ⟨by decide, by decide, ?_⟩
  rintro ⟨ts, heq, hlen, hdig⟩
  have hts : (defaultFilename ⟨2025, 1, 2, 3, 4, 5⟩ "abc123").data.take 14
      = ts := by
    rw [heq, List.take_left' hlen]
  have hx : ((defaultFilename ⟨2025, 1, 2, 3, 4, 5⟩ "abc123").data.take 14).all
      Char.isDigit = false := by decide
  rw [hts, hdig] at hx
  exact absurd hx (by decide)

/-- C4 (amended): with no explicit download path the tool produces a
destination inside the `heygen_videos` subdirectory of the system temp
directory whose filename is `{timestamp}_{job_id}.mp4`, where the timestamp
carries the 14 digits of `%Y%m%d_%H%M%S` as eight date digits, an underscore
and six time digits; two calls for the same job id at distinct
second-granularity timestamps yield two distinct filenames. -/
theorem download_default_path_amended (ops : ExternalOps) (st : ServerState)
    (c : HeyGenApiClient) (st' : ServerState) (fs : FS) (tmpdir : LocalPath)
    (now now' : DateTime) (video_id : String)
    (status : MCPVideoStatusResponse) (url : String) (res : Resource)
    (hget : get_api_client st = .ok (c, st'))
    (hst : ops.get_video_status c video_id = .ok status)
    (hurl : status.video_url = some url)
    (hdl : ops.download_video c url
        (tmpdir ++ ["heygen_videos", defaultFilename now video_id])
        (mkdirIfMissing (tmpdir ++ ["heygen_videos"]) fs) =
      clientDownloadVideo url
        (tmpdir ++ ["heygen_videos", defaultFilename now video_id])
        (mkdirIfMissing (tmpdir ++ ["heygen_videos"]) fs))
    (hres : ops.mkResource
        (tmpdir ++ ["heygen_videos", defaultFilename now video_id]) = .ok res)
    (hsafe : now.strftimeSafe) (hsafe' : now'.strftimeSafe)
    (hne : now ≠ now') :
    (download_video ops st fs tmpdir now video_id none).1.download_path =
        some (tmpdir ++ ["heygen_videos", defaultFilename now video_id]) ∧
      (download_video ops st fs tmpdir now video_id none).1.error = none ∧
      (tmpdir ++ ["heygen_videos", defaultFilename now video_id]).dropLast =
        tmpdir ++ ["heygen_videos"] ∧
      (defaultFilename now video_id).data =
        ((((datePart now ++ ['_']) ++ timePart now) ++ ['_']) ++ video_id.data)
          ++ (".mp4").data ∧
      (datePart now).length = 8 ∧
      (datePart now).all Char.isDigit = true ∧
      (timePart now).length = 6 ∧
      (timePart now).all Char.isDigit = true ∧
      defaultFilename now video_id ≠ defaultFilename now' video_id := by
  have hassoc : (tmpdir ++ ["heygen_videos"]) ++ [defaultFilename now video_id]
      = tmpdir ++ ["heygen_videos", defaultFilename now video_id] := by
    simp
  refine ⟨?_, ?_, ?_, defaultFilename_data now video_id, datePart_length now,
    datePart_all_digits now hsafe, timePart_length now,
    timePart_all_digits now hsafe,
    fun h => hne (defaultFilename_inj now now' video_id hsafe hsafe' h)⟩
  · simp [download_video, hget, hst, hurl, hassoc, hdl, clientDownloadVideo,
      hres]
  · simp [download_video, hget, hst, hurl, hassoc, hdl, clientDownloadVideo,
      hres]
  · rw [← hassoc, List.dropLast_concat]

/-- Witness for `download_default_path_amended` at the concrete times
2025-01-02 03:04:05 and 2025-01-02 03:04:06 with job id `"abc123"`. -/
theorem download_default_path_amended_witness :
    (download_video okDownloadOps ⟨some ⟨"k"⟩, none⟩ ⟨[], []⟩ ["tmp"]
        ⟨2025, 1, 2, 3, 4, 5⟩ "abc123" none).1.download_path =
        some (["tmp"] ++
          ["heygen_videos", defaultFilename ⟨2025, 1, 2, 3, 4, 5⟩ "abc123"]) ∧
      (download_video okDownloadOps ⟨some ⟨"k"⟩, none⟩ ⟨[], []⟩ ["tmp"]
        ⟨2025, 1, 2, 3, 4, 5⟩ "abc123" none).1.error = none ∧
      (["tmp"] ++
          ["heygen_videos",
            defaultFilename ⟨2025, 1, 2, 3, 4, 5⟩ "abc123"]).dropLast =
        ["tmp"] ++ ["heygen_videos"] ∧
      (defaultFilename ⟨2025, 1, 2, 3, 4, 5⟩ "abc123").data =
        ((((datePart ⟨2025, 1, 2, 3, 4, 5⟩ ++ ['_']) ++
            timePart ⟨2025, 1, 2, 3, 4, 5⟩) ++ ['_']) ++
          ("abc123").data) ++ (".mp4").data ∧
      (datePart ⟨2025, 1, 2, 3, 4, 5⟩).length = 8 ∧
      (datePart ⟨2025, 1, 2, 3, 4, 5⟩).all Char.isDigit = true ∧
      (timePart ⟨2025, 1, 2, 3, 4, 5⟩).length = 6 ∧
      (timePart ⟨2025, 1, 2, 3, 4, 5⟩).all Char.isDigit = true ∧
      defaultFilename ⟨2025, 1, 2, 3, 4, 5⟩ "abc123" ≠
        defaultFilename ⟨2025, 1, 2, 3, 4, 6⟩ "abc123" :=
  download_default_path_amended okDownloadOps ⟨some ⟨"k"⟩, none⟩ ⟨"k"⟩
    ⟨some ⟨"k"⟩, none⟩ ⟨[], []⟩ ["tmp"] ⟨2025, 1, 2, 3, 4, 5⟩
    ⟨2025, 1, 2, 3, 4, 6⟩ "abc123" completedStatus "https://x/y.mp4"
    ⟨["tmp", "heygen_videos", defaultFilename ⟨2025, 1, 2, 3, 4, 5⟩ "abc123"]⟩
    rfl rfl rfl rfl rfl (by decide) (by decide) (by decide)

end HeyGenMCP
